import Mathlib

/-!
Verification of the optimization-model core of `optimizationModel.py` (class
`OptSys`).  The Python code builds a Pyomo abstract model; the constraint
rules, derived expressions and postprocessing routines are pure functions of
the model data and of a (solved) variable assignment.  We embed them
shallowly: Pyomo sets become lists, parameters and solved variables become
functions into `ℚ`, and a constraint rule becomes a function returning a
three-way result (skip / equality constraint evaluated at the assignment /
build-time error).
-/

namespace OptSys

/-- Python `min` over a nonempty list of integers (total, 0 on `[]`;
the model only calls it on nonempty Pyomo sets). -/
def listMin (l : List ℤ) : ℤ :=
  match l with
  | [] => 0
  | x :: xs => xs.foldl min x

/-- Python `max` over a nonempty list of integers (total, 0 on `[]`). -/
def listMax (l : List ℤ) : ℤ :=
  match l with
  | [] => 0
  | x :: xs => xs.foldl max x

/-- Data of the built model: Pyomo sets (as lists) and parameters, restricted
to the fields the constraint rules under study read.  Nodes, technologies and
fuels are identified by naturals; temporal coordinates are integers (Pyomo
set elements that are stepped by `Delta_*`). -/
structure Model where
  Node : List ℕ
  Tech : List ℕ
  StorageTech : List ℕ
  Fuel : List ℕ
  VreFuel : List ℕ
  SubHour : List ℤ
  Hour : List ℤ
  Day : List ℤ
  Year : List ℤ
  Delta_sH : ℤ
  Delta_H : ℤ
  Delta_D : ℤ
  Delta_Y : ℤ
  Y_start : ℤ
  Electricity : ℕ
  Slack_switch : ℕ
  Unit_cap_switch : ℕ
  Unit_cap : ℕ → ℕ → ℤ → ℚ
  Max_inst_cap : ℕ → ℕ → ℤ → ℚ
  Max_inst_storage_vol : ℕ → ℕ → ℤ → ℚ
  E_input : ℕ → ℕ → Bool
  E_output : ℕ → ℕ → Bool
  F_subst : ℕ → ℕ → Bool
  Eff : ℕ → ℚ
  Start_storage_level : ℕ → ℕ → ℚ
  Cap_of_input : ℕ → Bool
  F_demand : ℕ → ℕ → ℤ → ℤ → ℤ → ℤ → ℚ
  F_edp : ℕ → ℕ → ℤ → ℤ → ℤ → ℤ → ℚ
  V_edp : ℕ → ℕ → ℤ → ℤ → ℤ → ℤ → ℚ
  Aux_ed : ℕ → ℚ
  Max_f_import : ℕ → ℕ → ℚ
  Max_f_fix_quant_import : ℕ → ℕ → ℚ
  F_fix_quant_import_size : ℕ → ℕ → ℚ
  Max_f_import_timeseries : ℕ → ℕ → ℤ → ℚ
  Share_const_cons_system : ℕ → ℚ
  Max_f_export : ℕ → ℕ → ℚ
  Max_f_injection : ℕ → ℕ → ℚ
  Max_f_export_timeseries : ℕ → ℕ → ℤ → ℚ
  Window_rolling_reserve : ℕ → ℕ → ℕ → ℕ
  F_rolling_reserve : ℕ → ℕ → ℕ → ℚ
  Scale_H_to : ℚ
  Scale_D_to : ℚ

/-- `m.Delta_T = 1 / len(m.SubHour)` (expression `calc_delta_t`). -/
def Model.Delta_T (m : Model) : ℚ := 1 / (m.SubHour.length : ℚ)

/-- `m.Scale_H = m.Scale_H_to / len(m.Hour)` (expression `calc_scale_h`). -/
def Model.Scale_H (m : Model) : ℚ := m.Scale_H_to / (m.Hour.length : ℚ)

/-- `m.Scale_D = m.Scale_D_to / len(m.Day)` (expression `calc_scale_d`). -/
def Model.Scale_D (m : Model) : ℚ := m.Scale_D_to / (m.Day.length : ℚ)

/-- A solved variable assignment: values of the Pyomo decision variables the
studied rules read.  `unit_add`/`unit_sub` take values in `ℕ` because the
variables are declared `within=pyo.NonNegativeIntegers`. -/
structure Assign where
  cap_add : ℕ → ℕ → ℤ → ℚ
  cap_sub : ℕ → ℕ → ℤ → ℚ
  storage_vol_add : ℕ → ℕ → ℤ → ℚ
  storage_vol_sub : ℕ → ℕ → ℤ → ℚ
  unit_add : ℕ → ℕ → ℤ → ℕ
  unit_sub : ℕ → ℕ → ℤ → ℕ
  f_cons : ℕ → ℕ → ℕ → ℕ → ℤ → ℤ → ℤ → ℤ → ℚ
  f_prod : ℕ → ℕ → ℕ → ℤ → ℤ → ℤ → ℤ → ℚ
  storage_energy_level : ℕ → ℕ → ℕ → ℤ → ℤ → ℤ → ℤ → ℚ
  start_storage_energy_level : ℕ → ℕ → ℕ → ℚ

/-- Result of evaluating one Pyomo constraint rule at a solved assignment:
`skip` is `pyo.Constraint.Skip`, `eq lhs rhs` is an emitted equality
constraint with both sides evaluated, `err` is a Python exception raised
while the rule runs (e.g. the `IndexError` of `[...][0]` on an empty list),
which aborts model construction. -/
inductive VRule where
  | skip : VRule
  | eq : ℚ → ℚ → VRule
  | err : VRule
deriving DecidableEq, Repr

/-- A rule result is satisfied by the assignment when the emitted constraint
holds; a skipped rule is vacuously satisfied; an error is never satisfied. -/
def VRule.sat : VRule → Prop
  | .skip => True
  | .eq a b => a = b
  | .err => False

instance (r : VRule) : Decidable r.sat := by
  cases r with
  | skip => exact isTrue trivial
  | eq a b => exact inferInstanceAs (Decidable (a = b))
  | err => exact isFalse id

/-- Auxiliary recursion for `inst_cap` (`cap_motion_rule`), with fuel
`(Y - Y_start).toNat`: `inst_cap[N,T,Y]` is `cap_add[N,T,Y]` at `Y = Y_start`
and otherwise recurses at `Y - Delta_Y`.  With the default `Delta_Y = 1` the
fuel is exactly the number of recursive steps. -/
def inst_cap_aux (m : Model) (a : Assign) (N T : ℕ) : ℕ → ℤ → ℚ
  | 0, Y => a.cap_add N T Y
  | fuel + 1, Y =>
    if Y = m.Y_start then a.cap_add N T Y
    else inst_cap_aux m a N T fuel (Y - m.Delta_Y) + a.cap_add N T Y - a.cap_sub N T Y

/-- `cap_motion_rule` (lines 557–563): installed capacity as a first-order
recurrence in the year. -/
def inst_cap (m : Model) (a : Assign) (N T : ℕ) (Y : ℤ) : ℚ :=
  inst_cap_aux m a N T (Y - m.Y_start).toNat Y

/-- Auxiliary recursion for `inst_storage_vol` (`storage_vol_motion_rule`). -/
def inst_storage_vol_aux (m : Model) (a : Assign) (N StoreT : ℕ) : ℕ → ℤ → ℚ
  | 0, Y => a.storage_vol_add N StoreT Y
  | fuel + 1, Y =>
    if Y = m.Y_start then a.storage_vol_add N StoreT Y
    else inst_storage_vol_aux m a N StoreT fuel (Y - m.Delta_Y)
      + a.storage_vol_add N StoreT Y - a.storage_vol_sub N StoreT Y

/-- `storage_vol_motion_rule` (lines 571–578): installed storage volume as a
first-order recurrence in the year. -/
def inst_storage_vol (m : Model) (a : Assign) (N StoreT : ℕ) (Y : ℤ) : ℚ :=
  inst_storage_vol_aux m a N StoreT (Y - m.Y_start).toNat Y

/-- The Python guard `sum(m.F_subst[F1,F2] for F2 in m.Fuel1) == 1`: the
substitution row of `F1` sums to one, i.e. `F1` is a settlement fuel. -/
def settlement (m : Model) (F1 : ℕ) : Bool :=
  (m.Fuel.filter (fun F2 => m.F_subst F1 F2)).length = 1

/-- The Python list `[F for F in m.Fuel if m.E_input[StoreT, F]]` used by the
storage rules to resolve the (supposedly unique) input fuel of a storage
technology; the rules take its element `[0]`. -/
def inputFuels (m : Model) (StoreT : ℕ) : List ℕ :=
  m.Fuel.filter (fun F => m.E_input StoreT F)

/-- `start_storage_energy_level_constraint_rule` (lines 1288–1296): for an
active storage, the sum of the start-level variables over the compatible
settlement fuels equals `Start_storage_level` times the installed storage
volume of the first sampled year.  The input-fuel lookup `[...][0]` runs
inside the activity guard and raises `IndexError` on an empty list. -/
def start_storage_energy_level_rule (m : Model) (a : Assign) (N StoreT : ℕ) : VRule :=
  if m.Max_inst_cap N StoreT (listMax m.Year) > 0
      ∧ m.Max_inst_storage_vol N StoreT (listMax m.Year) > 0 then
    match inputFuels m StoreT with
    | [] => .err
    | F :: _ =>
      .eq ((m.Fuel.filter (fun F1 => m.F_subst F F1 ∧ settlement m F1)).map
            (fun F1 => a.start_storage_energy_level N StoreT F1)).sum
          (m.Start_storage_level N StoreT * inst_storage_vol m a N StoreT (listMin m.Year))
  else .skip

/-- `end_storage_energy_level_constraint_rule` (lines 1300–1309): the storage
level at the last sampled (Year, Day, Hour, SubHour) equals the start-level
variable.  The input-fuel lookup `[...][0]` (line 1303) runs before the guard,
so it raises `IndexError` for every index when the list is empty. -/
def end_storage_energy_level_rule (m : Model) (a : Assign) (N StoreT F1 : ℕ) : VRule :=
  match inputFuels m StoreT with
  | [] => .err
  | F :: _ =>
    if m.Max_inst_cap N StoreT (listMax m.Year) > 0
        ∧ m.Max_inst_storage_vol N StoreT (listMax m.Year) > 0
        ∧ m.F_subst F F1 ∧ settlement m F1 then
      .eq (a.storage_energy_level N StoreT F1
            (listMax m.Year) (listMax m.Day) (listMax m.Hour) (listMax m.SubHour))
          (a.start_storage_energy_level N StoreT F1)
    else .skip

/-- The backward step of `storage_energy_balance_constraint_rule` (lines
1331–1344): decrement `SubHour` by `Delta_sH` and wrap into `Hour`, then
`Day`, then `Year`, at the bounds of the sampled subsets.  Result order is
`(preY, preD, preH, preSubH)`. -/
def prevCoord (m : Model) (Y D H sH : ℤ) : ℤ × ℤ × ℤ × ℤ :=
  let preSubH := sH - m.Delta_sH
  if preSubH < listMin m.SubHour then
    let preSubH := listMax m.SubHour
    let preH := H - m.Delta_H
    if preH < listMin m.Hour then
      let preH := listMax m.Hour
      let preD := D - m.Delta_D
      if preD < listMin m.Day then
        (Y - m.Delta_Y, listMax m.Day, preH, preSubH)
      else
        (Y, preD, preH, preSubH)
    else
      (Y, D, preH, preSubH)
  else
    (Y, D, H, preSubH)

/-- `storage_energy_balance_constraint_rule` (lines 1313–1357): the storage
level at `t` equals the previous level plus charged minus discharged energy;
at the wrap into a year before `Y_start` or before the first sampled year the
previous level is the free `start_storage_energy_level` variable. -/
def storage_energy_balance_rule (m : Model) (a : Assign)
    (N StoreT F1 : ℕ) (Y D H sH : ℤ) : VRule :=
  if m.Max_inst_cap N StoreT Y > 0 ∧ m.Max_inst_storage_vol N StoreT Y > 0
      ∧ settlement m F1 then
    match inputFuels m StoreT with
    | [] => .err
    | F :: _ =>
      if ¬ m.F_subst F F1 then .skip
      else
        let charge := a.f_cons N StoreT F F1 Y D H sH * m.Eff StoreT * m.Delta_T
        let discharge := a.f_prod N StoreT F1 Y D H sH / m.Eff StoreT * m.Delta_T
        let p := prevCoord m Y D H sH
        let preLevel :=
          if p.1 < m.Y_start ∨ p.1 < listMin m.Year then
            a.start_storage_energy_level N StoreT F1
          else
            a.storage_energy_level N StoreT F1 p.1 p.2.1 p.2.2.1 p.2.2.2
        .eq (a.storage_energy_level N StoreT F1 Y D H sH) (preLevel + charge - discharge)
  else .skip

/-- The forward step of `storage_energy_level_rolling_reserve_rule` (lines
640–655): advance `SubHour` by `Delta_sH` and roll into `Hour`, then `Day`,
then `Year`, at the bounds of the sampled subsets; when the advanced year
exceeds `max(m.Year)` the code executes `Y = min(m.Day)` (line 655), folding
the year coordinate back to the minimum of the Day set.  Result order is
`(Y, D, H, sH)`. -/
def nextCoord (m : Model) (Y D H sH : ℤ) : ℤ × ℤ × ℤ × ℤ :=
  let sH1 := sH + m.Delta_sH
  if sH1 > listMax m.SubHour then
    let sH1 := listMin m.SubHour
    let H1 := H + m.Delta_H
    if H1 > listMax m.Hour then
      let H1 := listMin m.Hour
      let D1 := D + m.Delta_D
      if D1 > listMax m.Day then
        let D1 := listMin m.Day
        let Y1 := Y + m.Delta_Y
        if Y1 > listMax m.Year then
          (listMin m.Day, D1, H1, sH1)
        else
          (Y1, D1, H1, sH1)
      else
        (Y, D1, H1, sH1)
    else
      (Y, D, H1, sH1)
  else
    (Y, D, H, sH1)

/-- The accumulation loop of `storage_energy_level_rolling_reserve_rule`
(lines 635–657): step forward `k` times, adding `F_demand` at each advanced
coordinate. -/
def rollingWalk (m : Model) (N F : ℕ) : ℕ → ℤ × ℤ × ℤ × ℤ → ℚ
  | 0, _ => 0
  | k + 1, c =>
    let c1 := nextCoord m c.1 c.2.1 c.2.2.1 c.2.2.2
    m.F_demand N F c1.1 c1.2.1 c1.2.2.1 c1.2.2.2 + rollingWalk m N F k c1

/-- `storage_energy_level_rolling_reserve_rule` (lines 630–663): the rolling
reserve is the forward-looking sum of `F_demand` over
`Window_rolling_reserve * len(SubHour)` steps, scaled by the security factor
and `Delta_T`; zero when the window or the factor is not positive. -/
def Rolling_energy_reserve (m : Model) (N StoreT F : ℕ) (Y D H sH : ℤ) : ℚ :=
  if m.Window_rolling_reserve N StoreT F > 0 ∧ m.F_rolling_reserve N StoreT F > 0 then
    rollingWalk m N F (m.Window_rolling_reserve N StoreT F * m.SubHour.length) (Y, D, H, sH)
      * m.F_rolling_reserve N StoreT F * m.Delta_T
  else 0

/-- `unit_add_constraint_rule` (lines 1012–1019): when `Unit_cap_switch == 1`,
`cap_add == unit_add * Unit_cap`; otherwise `pyo.Constraint.Skip`. -/
def unit_add_constraint_rule (m : Model) (a : Assign) (N T : ℕ) (Y : ℤ) : VRule :=
  if m.Unit_cap_switch = 1 then
    .eq (a.cap_add N T Y) ((a.unit_add N T Y : ℚ) * m.Unit_cap N T Y)
  else .skip

/-- `unit_sub_constraint_rule` (lines 1022–1029): when `Unit_cap_switch == 1`,
`cap_sub == unit_sub * Unit_cap`; otherwise `pyo.Constraint.Skip`. -/
def unit_sub_constraint_rule (m : Model) (a : Assign) (N T : ℕ) (Y : ℤ) : VRule :=
  if m.Unit_cap_switch = 1 then
    .eq (a.cap_sub N T Y) ((a.unit_sub N T Y : ℚ) * m.Unit_cap N T Y)
  else .skip

/-- Sum of a quantity over the sampled `(Day, Hour, SubHour)` grid. -/
def timeSum (m : Model) (f : ℤ → ℤ → ℤ → ℚ) : ℚ :=
  (m.Day.map (fun D =>
    (m.Hour.map (fun H =>
      (m.SubHour.map (fun sH => f D H sH)).sum)).sum)).sum

/-- The scaled annual consumption term of `flh_rule` (line 1826): summed
`f_cons` over compatible `F1` and the time grid, times
`Delta_T * Scale_H * Scale_D`. -/
def flh_cons_load (m : Model) (a : Assign) (N T F : ℕ) (Y : ℤ) : ℚ :=
  ((m.Fuel.filter (fun F1 => m.F_subst F F1)).map (fun F1 =>
    timeSum m (fun D H sH => a.f_cons N T F F1 Y D H sH))).sum
    * m.Delta_T * m.Scale_H * m.Scale_D

/-- The scaled annual production term of `flh_rule` (line 1829): summed
`f_prod` over the time grid, times `Delta_T * Scale_H * Scale_D`. -/
def flh_prod_load (m : Model) (a : Assign) (N T F1 : ℕ) (Y : ℤ) : ℚ :=
  timeSum m (fun D H sH => a.f_prod N T F1 Y D H sH)
    * m.Delta_T * m.Scale_H * m.Scale_D

/-- `flh_rule` (lines 1816–1833): full-load hours; `0` when the installed
capacity is zero, otherwise the scaled annual load (consumption for
capacity-of-input technologies, production otherwise) divided by the
installed capacity.  `none` models the `IndexError` of the `[...][0]` fuel
lookup on an empty candidate list. -/
def flh (m : Model) (a : Assign) (N T : ℕ) (Y : ℤ) : Option ℚ :=
  let ic := inst_cap m a N T Y
  if ic = 0 then some 0
  else if m.Cap_of_input T then
    match m.Fuel.filter (fun F => m.E_input T F) with
    | [] => none
    | F :: _ => some (flh_cons_load m a N T F Y / ic)
  else
    match m.Fuel.filter (fun F => m.E_output T F) with
    | [] => none
    | F1 :: _ => some (flh_prod_load m a N T F1 Y / ic)

/-- The fixed-point loop of `calc_LCOEnergy` (lines 2033–2060):
`i = 1; while (delta > thr or i < 4) and i < 20: body; i += 1`.  `d k` is the
value of `model.delta_lcoe` read by the loop condition after `k` executed
bodies (`d 0` is the initial value, `float('inf')` in the code); `k` counts
executed bodies, so the loop counter `i` is `k + 1`.  The fuel `25` exceeds
the cap `i < 20`, so it is never exhausted. -/
def lcoe_loop_aux (thr : ℚ) (d : ℕ → ℚ) : ℕ → ℕ → ℕ
  | 0, k => k
  | fuel + 1, k =>
    if (thr < d k ∨ k + 1 < 4) ∧ k + 1 < 20 then lcoe_loop_aux thr d fuel (k + 1) else k

/-- Number of iterations (executed loop bodies) of the `calc_LCOEnergy`
fixed-point loop, for threshold `thr` (`self.zero_threshold = 1e-6`) and
delta trace `d`. -/
def calc_LCOEnergy_iterations (thr : ℚ) (d : ℕ → ℚ) : ℕ :=
  lcoe_loop_aux thr d 25 0

/-- Data read by `calc_disc_opex` (lines 1495–1513): the sampled year labels
(positive integers, `Y_start` defaults to 1, so Nat subtraction in `Y - 1`
coincides with Python), the nodes, the project horizon `Scale_Y_to`
(a `NonNegativeIntegers` Pyomo param) and the annual opex series for the
technology under consideration. -/
structure DiscData where
  Year : List ℕ
  Node : List ℕ
  Scale_Y_to : ℕ
  opex : ℕ → ℕ → ℚ

/-- Python `max` over a nonempty list of naturals (total, 0 on `[]`). -/
def listMaxNat (l : List ℕ) : ℕ :=
  match l with
  | [] => 0
  | x :: xs => xs.foldl max x

/-- `Scale_Y_int = int(model.Scale_Y_to / len(model.Year))` (line 1504):
integer scale factor, Nat division. -/
def DiscData.scaleYInt (dd : DiscData) : ℕ := dd.Scale_Y_to / dd.Year.length

/-- `missing_years` (line 1509) with the default opex offset
`self.start_disc['opex'] = 1`: the real years beyond
`len(Year) * Scale_Y_int`, charged at the last sampled year's value. -/
def DiscData.missingYears (dd : DiscData) : List ℕ :=
  (List.range (dd.Scale_Y_to - dd.Year.length * dd.scaleYInt)).map
    (fun i => dd.Scale_Y_to - i)

/-- `calc_disc_opex` (lines 1495–1513) with the default opex offset
`y_offset = 1`: every real year is discounted individually at
`r_frac ** (Y2 + 1 + (Y-1) * Scale_Y_int)`, plus the tail correction for the
missing years at the last sampled year's value. -/
def calc_disc_opex (dd : DiscData) (r : ℚ) : ℚ :=
  let SYi := dd.scaleYInt
  let rf : ℚ := 1 / (1 + r)
  (dd.Year.map (fun Y =>
    ((List.range SYi).map (fun Y2 =>
      (dd.Node.map (fun N => dd.opex N Y * rf ^ (Y2 + 1 + (Y - 1) * SYi))).sum)).sum)).sum
  + (dd.missingYears.map (fun Ym =>
      (dd.Node.map (fun N => dd.opex N (listMaxNat dd.Year) * rf ^ Ym)).sum)).sum

/-- The Pyomo decision variables that can occur in the fuel balance
(lines 1083–1110), with their full index. -/
inductive FVar where
  | f_cons (N T F F1 : ℕ) (Y D H sH : ℤ) : FVar
  | f_prod (N T F1 : ℕ) (Y D H sH : ℤ) : FVar
  | f_import (N F1 : ℕ) (Y D H sH : ℤ) : FVar
  | f_fix_quant_import (N F1 : ℕ) (Y D H sH : ℤ) : FVar
  | f_import_timeseries (N F1 : ℕ) (Y D H sH : ℤ) : FVar
  | f_delivery (N F F1 : ℕ) (Y D H sH : ℤ) : FVar
  | f_supply_cons_system (N F F1 : ℕ) (Y D H sH : ℤ) : FVar
  | f_export (N F F1 : ℕ) (Y D H sH : ℤ) : FVar
  | f_export_timeseries (N F F1 : ℕ) (Y D H sH : ℤ) : FVar
  | f_slack_pos (N F1 : ℕ) (Y D H sH : ℤ) : FVar
  | f_slack_neg (N F1 : ℕ) (Y D H sH : ℤ) : FVar
deriving DecidableEq, Repr

/-- A Pyomo linear expression as built by the fuel balance rule: a constant
plus a list of coefficient-times-variable terms.  A Python `sum` over an
empty generator is the plain number `0`, i.e. a `LinExpr` with no terms. -/
structure LinExpr where
  const : ℚ
  terms : List (ℚ × FVar)
deriving DecidableEq, Repr

/-- The dispatch at the end of `fuel_balance_constraint_rule` (lines
1110–1118).  Python evaluates `lhs == rhs` to a plain `bool` exactly when
both sides are native numbers (no variable term remains); the code then skips
on `True` and returns `None` on `False`, and Pyomo raises a model-build-time
error when a constraint rule returns `None`.  Otherwise `lhs == rhs` is a
relational expression and is returned as a genuine constraint. -/
inductive BalanceResult where
  | constraint (lhs rhs : LinExpr) : BalanceResult
  | skip : BalanceResult
  | buildError : BalanceResult
deriving DecidableEq, Repr

/-- `balance = LHS == RHS` followed by the `isinstance(balance, bool)`
three-way dispatch of lines 1110–1118. -/
def pyoEqDispatch (lhs rhs : LinExpr) : BalanceResult :=
  if lhs.terms.isEmpty ∧ rhs.terms.isEmpty then
    if lhs.const = rhs.const then .skip else .buildError
  else .constraint lhs rhs

/-- `m.Tech - m.StorageTech` (Pyomo set difference), as used by the fuel
balance rule. -/
def nonStorageTech (m : Model) : List ℕ :=
  m.Tech.filter (fun T => ¬ m.StorageTech.contains T)

/-- `f_cons_temp` (line 1083): consumption terms of the fuel balance. -/
def f_cons_terms (m : Model) (N F1 : ℕ) (Y D H sH : ℤ) : List (ℚ × FVar) :=
  ((nonStorageTech m).filter (fun T => decide (0 < m.Max_inst_cap N T Y))).flatMap
    (fun T =>
      (m.Fuel.filter (fun F => m.F_subst F F1 &&
        (m.E_input T F || (m.F_subst m.Electricity F1 &&
          (decide (0 < m.F_edp N T Y D H sH) || decide (0 < m.V_edp N T Y D H sH)
            || decide (0 < m.Aux_ed T)))))).map
        (fun F => ((1 : ℚ), FVar.f_cons N T F F1 Y D H sH)))

/-- `f_prod_temp` (line 1086): production terms of the fuel balance. -/
def f_prod_terms (m : Model) (N F1 : ℕ) (Y D H sH : ℤ) : List (ℚ × FVar) :=
  ((nonStorageTech m).filter (fun T =>
      decide (0 < m.Max_inst_cap N T Y) && m.E_output T F1)).map
    (fun T => ((1 : ℚ), FVar.f_prod N T F1 Y D H sH))

/-- `f_charge_temp` (line 1089): storage charge terms of the fuel balance. -/
def f_charge_terms (m : Model) (N F1 : ℕ) (Y D H sH : ℤ) : List (ℚ × FVar) :=
  (m.StorageTech.filter (fun T =>
      decide (0 < m.Max_inst_cap N T Y) && decide (0 < m.Max_inst_storage_vol N T Y))).flatMap
    (fun T =>
      (m.Fuel.filter (fun F => m.E_input T F && m.F_subst F F1 && settlement m F1)).map
        (fun F => ((1 : ℚ), FVar.f_cons N T F F1 Y D H sH)))

/-- `f_discharge_temp` (line 1092): storage discharge terms; note the
summand `f_prod[N,T,F1,...]` does not depend on the bound fuel `F`, exactly
as in the source. -/
def f_discharge_terms (m : Model) (N F1 : ℕ) (Y D H sH : ℤ) : List (ℚ × FVar) :=
  (m.StorageTech.filter (fun T =>
      decide (0 < m.Max_inst_cap N T Y) && decide (0 < m.Max_inst_storage_vol N T Y))).flatMap
    (fun T =>
      (m.Fuel.filter (fun F => m.E_output T F && m.F_subst F F1 && settlement m F1)).map
        (fun _ => ((1 : ℚ), FVar.f_prod N T F1 Y D H sH)))

/-- Left-hand side of the fuel balance (line 1110): production, storage
discharge, the three import channels and both slack variables. -/
def fuel_balance_lhs (m : Model) (N F1 : ℕ) (Y D H sH : ℤ) : LinExpr :=
  { const := 0
    terms :=
      f_prod_terms m N F1 Y D H sH
      ++ f_discharge_terms m N F1 Y D H sH
      ++ (if 0 < m.Max_f_import N F1 then [((1 : ℚ), FVar.f_import N F1 Y D H sH)] else [])
      ++ (if 0 < m.Max_f_fix_quant_import N F1 then
            [((m.F_fix_quant_import_size N F1 / m.Delta_T : ℚ),
              FVar.f_fix_quant_import N F1 Y D H sH)]
          else [])
      ++ (if 0 < m.Max_f_import_timeseries N F1 Y then
            [((1 : ℚ), FVar.f_import_timeseries N F1 Y D H sH)] else [])
      ++ (if m.Slack_switch = 1 then [((1 : ℚ), FVar.f_slack_pos N F1 Y D H sH)] else [])
      ++ (if m.Slack_switch = 1 then [((1 : ℚ), FVar.f_slack_neg N F1 Y D H sH)] else []) }

/-- Right-hand side of the fuel balance (line 1110): consumption, constant
system self-consumption supply, storage charge, delivery to demand and both
export channels. -/
def fuel_balance_rhs (m : Model) (N F1 : ℕ) (Y D H sH : ℤ) : LinExpr :=
  { const := 0
    terms :=
      f_cons_terms m N F1 Y D H sH
      ++ (m.Fuel.filter (fun F => m.F_subst F F1
            && decide (0 < m.Share_const_cons_system F) && settlement m F1)).map
          (fun F => ((1 : ℚ), FVar.f_supply_cons_system N F F1 Y D H sH))
      ++ f_charge_terms m N F1 Y D H sH
      ++ (m.Fuel.filter (fun F => m.F_subst F F1
            && decide (0 < m.F_demand N F Y D H sH) && settlement m F1)).map
          (fun F => ((1 : ℚ), FVar.f_delivery N F F1 Y D H sH))
      ++ (m.Fuel.filter (fun F => m.F_subst F F1
            && (decide (0 < m.Max_f_export N F) || decide (0 < m.Max_f_injection N F))
            && settlement m F1)).map
          (fun F => ((1 : ℚ), FVar.f_export N F F1 Y D H sH))
      ++ (m.Fuel.filter (fun F => m.F_subst F F1
            && decide (0 < m.Max_f_export_timeseries N F Y) && settlement m F1)).map
          (fun F => ((1 : ℚ), FVar.f_export_timeseries N F F1 Y D H sH)) }

/-- `fuel_balance_constraint_rule` (lines 1074–1123): skip for superset and
VRE fuels, otherwise build both sides and apply the three-way dispatch. -/
def fuel_balance_constraint_rule (m : Model) (N F1 : ℕ) (Y D H sH : ℤ) : BalanceResult :=
  if settlement m F1 ∧ ¬ m.VreFuel.contains F1 then
    pyoEqDispatch (fuel_balance_lhs m N F1 Y D H sH) (fuel_balance_rhs m N F1 Y D H sH)
  else .skip

/-- A minimal concrete instance: one node, one (storage) technology, one fuel
that is its own settlement fuel, a single sampled coordinate in each temporal
set, default steps and start year. -/
def baseModel : Model where
  Node := [0]
  Tech := [0]
  StorageTech := [0]
  Fuel := [0]
  VreFuel := []
  SubHour := [0]
  Hour := [0]
  Day := [0]
  Year := [1]
  Delta_sH := 1
  Delta_H := 1
  Delta_D := 1
  Delta_Y := 1
  Y_start := 1
  Electricity := 0
  Slack_switch := 1
  Unit_cap_switch := 1
  Unit_cap := fun _ _ _ => 1
  Max_inst_cap := fun _ _ _ => 1
  Max_inst_storage_vol := fun _ _ _ => 1
  E_input := fun _ _ => true
  E_output := fun _ _ => true
  F_subst := fun _ _ => true
  Eff := fun _ => 1
  Start_storage_level := fun _ _ => 0
  Cap_of_input := fun _ => false
  F_demand := fun _ _ _ _ _ _ => 0
  F_edp := fun _ _ _ _ _ _ => 0
  V_edp := fun _ _ _ _ _ _ => 0
  Aux_ed := fun _ => 0
  Max_f_import := fun _ _ => 0
  Max_f_fix_quant_import := fun _ _ => 0
  F_fix_quant_import_size := fun _ _ => 1
  Max_f_import_timeseries := fun _ _ _ => 0
  Share_const_cons_system := fun _ => 0
  Max_f_export := fun _ _ => 0
  Max_f_injection := fun _ _ => 0
  Max_f_export_timeseries := fun _ _ _ => 0
  Window_rolling_reserve := fun _ _ _ => 0
  F_rolling_reserve := fun _ _ _ => 0
  Scale_H_to := 24
  Scale_D_to := 365

/-- The all-zero assignment. -/
def zeroAssign : Assign where
  cap_add := fun _ _ _ => 0
  cap_sub := fun _ _ _ => 0
  storage_vol_add := fun _ _ _ => 0
  storage_vol_sub := fun _ _ _ => 0
  unit_add := fun _ _ _ => 0
  unit_sub := fun _ _ _ => 0
  f_cons := fun _ _ _ _ _ _ _ _ => 0
  f_prod := fun _ _ _ _ _ _ _ => 0
  storage_energy_level := fun _ _ _ _ _ _ _ => 0
  start_storage_energy_level := fun _ _ _ => 0

/-- An assignment with `cap_add = 5` and `unit_add = 5` everywhere, feasible
for the unit-sizing constraint with `Unit_cap = 1`. -/
def unitAssign : Assign :=
  { zeroAssign with
    cap_add := fun _ _ _ => 5
    unit_add := fun _ _ _ => 5 }

/-- A calendar whose sampled Day set `[5]` has a minimum different from the
minimum `1` of the sampled Year set, to expose the forward-wrap fold. -/
def dayFiveModel : Model := { baseModel with Day := [5] }

/-- A model whose single storage technology declares TWO input fuels
(`E_input` holds for fuels 0 and 1), with the identity substitution relation
so both are settlement fuels. -/
def twoFuelModel : Model :=
  { baseModel with
    Fuel := [0, 1]
    F_subst := fun F F1 => F == F1 }

/-- An assignment whose `f_cons` distinguishes the fuel index: `3` on fuel 0
and `7` on fuel 1, making visible which input fuel a rule resolved. -/
def fuelMarkedAssign : Assign :=
  { zeroAssign with
    f_cons := fun _ _ F _ _ _ _ _ => if F = 0 then 3 else 7 }

/-- A model whose storage technology declares NO input fuel. -/
def noFuelModel : Model := { baseModel with E_input := fun _ _ => false }

/-- Discounting data for a single sampled year representing a one-year
horizon, one node, flat opex 1. -/
def flatDiscData : DiscData where
  Year := [1]
  Node := [0]
  Scale_Y_to := 1
  opex := fun _ _ => 1

/-- Claim C3: for every (node, tech, year), installed capacity satisfies
`inst[Y] = inst[Y-1] + add[Y] - sub[Y]` for every year after the start year
and `inst[Y_start] = add[Y_start]` at the start year (with the default year
step `Delta_Y = 1`); the identical recurrence holds for installed storage
volume. -/
theorem cap_motion_recurrence (m : Model) (a : Assign) (N T StoreT : ℕ) (Y : ℤ)
    (hΔ : m.Delta_Y = 1) (hafter : m.Y_start < Y) :
    inst_cap m a N T Y
      = inst_cap m a N T (Y - 1) + a.cap_add N T Y - a.cap_sub N T Y
    ∧ inst_storage_vol m a N StoreT Y
      = inst_storage_vol m a N StoreT (Y - 1)
        + a.storage_vol_add N StoreT Y - a.storage_vol_sub N StoreT Y
    ∧ inst_cap m a N T m.Y_start = a.cap_add N T m.Y_start
    ∧ inst_storage_vol m a N StoreT m.Y_start = a.storage_vol_add N StoreT m.Y_start := by
  have hfuel : (Y - m.Y_start).toNat = (Y - 1 - m.Y_start).toNat + 1 := by omega
  have hne : Y ≠ m.Y_start := by omega
  have hzero : (m.Y_start - m.Y_start).toNat = 0 := by omega
  refine ⟨?_, ?_, ?_, ?_⟩
  · rw [inst_cap, inst_cap, hfuel, inst_cap_aux, if_neg hne, hΔ]
  · rw [inst_storage_vol, inst_storage_vol, hfuel, inst_storage_vol_aux, if_neg hne, hΔ]
  · rw [inst_cap, hzero, inst_cap_aux]
  · rw [inst_storage_vol, hzero, inst_storage_vol_aux]

/-- Witness for C3 at the base instance with `Y = 2`. -/
theorem cap_motion_recurrence_witness :
    baseModel.Delta_Y = 1 ∧ baseModel.Y_start < 2
    ∧ inst_cap baseModel unitAssign 0 0 2
      = inst_cap baseModel unitAssign 0 0 1
        + unitAssign.cap_add 0 0 2 - unitAssign.cap_sub 0 0 2 :=
  ⟨rfl, by decide,
    (cap_motion_recurrence baseModel unitAssign 0 0 0 2 rfl (by decide)).1⟩

/-- Claim C5: when `Unit_cap_switch = 1` the unit-sizing rules emit the
equality constraints `cap_add == unit_add * Unit_cap` and
`cap_sub == unit_sub * Unit_cap`; since `unit_add`/`unit_sub` are
non-negative integer variables, any assignment satisfying the emitted
constraint makes `cap_add` (resp. `cap_sub`) an exact natural-number multiple
of `Unit_cap`.  When the switch is not 1, both rules return
`pyo.Constraint.Skip` (the constraints are omitted entirely). -/
theorem unit_sizing (m : Model) (a : Assign) (N T : ℕ) (Y : ℤ) :
    (m.Unit_cap_switch = 1 →
      unit_add_constraint_rule m a N T Y
        = .eq (a.cap_add N T Y) ((a.unit_add N T Y : ℚ) * m.Unit_cap N T Y)
      ∧ unit_sub_constraint_rule m a N T Y
        = .eq (a.cap_sub N T Y) ((a.unit_sub N T Y : ℚ) * m.Unit_cap N T Y)
      ∧ ((unit_add_constraint_rule m a N T Y).sat →
          ∃ k : ℕ, a.cap_add N T Y = (k : ℚ) * m.Unit_cap N T Y)
      ∧ ((unit_sub_constraint_rule m a N T Y).sat →
          ∃ k : ℕ, a.cap_sub N T Y = (k : ℚ) * m.Unit_cap N T Y))
    ∧ (m.Unit_cap_switch ≠ 1 →
      unit_add_constraint_rule m a N T Y = .skip
      ∧ unit_sub_constraint_rule m a N T Y = .skip) := by
  constructor
  · intro hsw
    have hadd : unit_add_constraint_rule m a N T Y
        = .eq (a.cap_add N T Y) ((a.unit_add N T Y : ℚ) * m.Unit_cap N T Y) := by
      rw [unit_add_constraint_rule, if_pos hsw]
    have hsub : unit_sub_constraint_rule m a N T Y
        = .eq (a.cap_sub N T Y) ((a.unit_sub N T Y : ℚ) * m.Unit_cap N T Y) := by
      rw [unit_sub_constraint_rule, if_pos hsw]
    refine ⟨hadd, hsub, ?_, ?_⟩
    · intro hsat
      rw [hadd] at hsat
      exact ⟨a.unit_add N T Y, hsat⟩
    · intro hsat
      rw [hsub] at hsat
      exact ⟨a.unit_sub N T Y, hsat⟩
  · intro hsw
    constructor
    · rw [unit_add_constraint_rule, if_neg hsw]
    · rw [unit_sub_constraint_rule, if_neg hsw]

/-- Witness for C5: the base instance has the switch on and the assignment
`cap_add = 5 = 5 * 1` satisfies the emitted constraint, so `cap_add` is an
integer multiple of `Unit_cap`. -/
theorem unit_sizing_witness :
    baseModel.Unit_cap_switch = 1
    ∧ (∃ k : ℕ, unitAssign.cap_add 0 0 1 = (k : ℚ) * baseModel.Unit_cap 0 0 1)
    ∧ unit_add_constraint_rule baseModel unitAssign 0 0 1
      = .eq (unitAssign.cap_add 0 0 1)
          ((unitAssign.unit_add 0 0 1 : ℚ) * baseModel.Unit_cap 0 0 1) :=
  ⟨rfl,
    ((unit_sizing baseModel unitAssign 0 0 1).1 rfl).2.2.1
      (by simp [unit_add_constraint_rule, unitAssign, zeroAssign, baseModel, VRule.sat]),
    ((unit_sizing baseModel unitAssign 0 0 1).1 rfl).1⟩

/-- Claim C10: the full-load-hours expression `flh` returns 0 when the
installed capacity is zero; otherwise it returns the scaled annual load
(consumption for capacity-of-input technologies, production otherwise)
divided by the installed capacity, whose non-zeroness is exactly the guard
of the branch, so the division is never taken with a zero divisor. -/
theorem flh_spec (m : Model) (a : Assign) (N T : ℕ) (Y : ℤ) :
    (inst_cap m a N T Y = 0 → flh m a N T Y = some 0)
    ∧ (inst_cap m a N T Y ≠ 0 → m.Cap_of_input T = true →
        ∀ F rest, m.Fuel.filter (fun F2 => m.E_input T F2) = F :: rest →
          flh m a N T Y = some (flh_cons_load m a N T F Y / inst_cap m a N T Y))
    ∧ (inst_cap m a N T Y ≠ 0 → m.Cap_of_input T = false →
        ∀ F1 rest, m.Fuel.filter (fun F2 => m.E_output T F2) = F1 :: rest →
          flh m a N T Y = some (flh_prod_load m a N T F1 Y / inst_cap m a N T Y)) := by
  refine ⟨?_, ?_, ?_⟩
  · intro h0
    rw [flh]
    simp [h0]
  · intro hne hcap F rest hfilter
    rw [flh]
    simp [if_neg hne, hcap, hfilter]
  · intro hne hcap F1 rest hfilter
    rw [flh]
    simp [if_neg hne, hcap, hfilter]

/-- Witness for C10: at the base instance the zero assignment yields zero
installed capacity and `flh = 0`, while `cap_add = 5` yields the
production-load branch. -/
theorem flh_spec_witness :
    flh baseModel zeroAssign 0 0 1 = some 0
    ∧ flh baseModel unitAssign 0 0 1
      = some (flh_prod_load baseModel unitAssign 0 0 0 1 / inst_cap baseModel unitAssign 0 0 1) :=
  ⟨(flh_spec baseModel zeroAssign 0 0 1).1 (by decide),
    (flh_spec baseModel unitAssign 0 0 1).2.2 (by decide) rfl 0 [] rfl⟩

/-- Claim C6: in the forward walk of the rolling-reserve expression,
advancing `SubHour` past its sampled maximum rolls into `Hour`, then `Day`,
then `Year`; when the advanced year would exceed the last sampled year, the
year coordinate is assigned `min(m.Day)` — the minimum of the Day set, not
the first sampled year. -/
theorem rolling_reserve_forward_wrap (m : Model) (Y D H sH : ℤ)
    (hsH : sH + m.Delta_sH > listMax m.SubHour)
    (hH : H + m.Delta_H > listMax m.Hour)
    (hD : D + m.Delta_D > listMax m.Day)
    (hY : Y + m.Delta_Y > listMax m.Year) :
    nextCoord m Y D H sH
      = (listMin m.Day, listMin m.Day, listMin m.Hour, listMin m.SubHour) := by
  rw [nextCoord]
  simp only [if_pos hsH, if_pos hH, if_pos hD, if_pos hY]

/-- Witness for C6: with sampled `Day = [5]` and `Year = [1]`, stepping
forward from the last coordinate assigns the year the value 5 = `min(Day)`,
which differs from the first sampled year 1. -/
theorem rolling_reserve_forward_wrap_witness :
    nextCoord dayFiveModel 1 5 0 0 = (5, 5, 0, 0)
    ∧ listMin dayFiveModel.Year = 1 ∧ (5 : ℤ) ≠ 1 :=
  ⟨rolling_reserve_forward_wrap dayFiveModel 1 5 0 0
      (by decide) (by decide) (by decide) (by decide),
    by decide, by decide⟩

/-- Claim C1: for an active (node, storage-tech, settlement-fuel) triple
(positive `Max_inst_cap` and `Max_inst_storage_vol`, compatible settlement
fuel), any assignment satisfying the emitted end-storage and start-storage
constraints has its storage level at the last sampled
(Year, Day, Hour, SubHour) equal to the start-level variable, and the sum of
the start levels over the compatible settlement fuels equal to
`Start_storage_level` times the installed storage volume of the first
sampled year — so storage gains or loses no energy across the wrap
boundary. -/
theorem storage_cyclic_consistency (m : Model) (a : Assign) (N StoreT F1 : ℕ)
    (F : ℕ) (rest : List ℕ) (hF : inputFuels m StoreT = F :: rest)
    (hcap : m.Max_inst_cap N StoreT (listMax m.Year) > 0)
    (hvol : m.Max_inst_storage_vol N StoreT (listMax m.Year) > 0)
    (hsub : m.F_subst F F1 = true) (hsett : settlement m F1 = true)
    (hend : (end_storage_energy_level_rule m a N StoreT F1).sat)
    (hstart : (start_storage_energy_level_rule m a N StoreT).sat) :
    a.storage_energy_level N StoreT F1
        (listMax m.Year) (listMax m.Day) (listMax m.Hour) (listMax m.SubHour)
      = a.start_storage_energy_level N StoreT F1
    ∧ ((m.Fuel.filter (fun F2 => m.F_subst F F2 ∧ settlement m F2)).map
          (fun F2 => a.start_storage_energy_level N StoreT F2)).sum
      = m.Start_storage_level N StoreT * inst_storage_vol m a N StoreT (listMin m.Year) := by
  constructor
  · simp only [end_storage_energy_level_rule, hF] at hend
    rw [if_pos ⟨hcap, hvol, hsub, hsett⟩] at hend
    exact hend
  · simp only [start_storage_energy_level_rule, hF] at hstart
    rw [if_pos ⟨hcap, hvol⟩] at hstart
    exact hstart

/-- Witness for C1 at the base instance with the all-zero assignment, which
satisfies both emitted constraints. -/
theorem storage_cyclic_consistency_witness :
    zeroAssign.storage_energy_level 0 0 0
        (listMax baseModel.Year) (listMax baseModel.Day)
        (listMax baseModel.Hour) (listMax baseModel.SubHour)
      = zeroAssign.start_storage_energy_level 0 0 0
    ∧ ((baseModel.Fuel.filter
          (fun F2 => baseModel.F_subst 0 F2 ∧ settlement baseModel F2)).map
          (fun F2 => zeroAssign.start_storage_energy_level 0 0 F2)).sum
      = baseModel.Start_storage_level 0 0
        * inst_storage_vol baseModel zeroAssign 0 0 (listMin baseModel.Year) :=
  storage_cyclic_consistency baseModel zeroAssign 0 0 0 0 [] rfl
    (by decide) (by decide) rfl rfl
    (by simp [end_storage_energy_level_rule, inputFuels, baseModel, zeroAssign,
          settlement, VRule.sat, listMax, listMin])
    (by simp [start_storage_energy_level_rule, inputFuels, baseModel, zeroAssign,
          settlement, VRule.sat, listMax, listMin, inst_storage_vol, inst_storage_vol_aux])

/-- Claim C2: for an active (node, storage-tech, settlement-fuel) triple and
any sampled timestep, the storage balance rule emits the equality
`level[t] = level[t-1] + charge*Eff*Delta_T - discharge/Eff*Delta_T`, where
the previous coordinate is `prevCoord` (decrement SubHour, wrap into Hour,
then Day, then Year at the sampled-subset bounds), and where the previous
level is replaced by the free `start_storage_energy_level` variable exactly
when the wrapped previous year falls before `Y_start` or before the first
sampled year. -/
theorem storage_energy_balance_spec (m : Model) (a : Assign) (N StoreT F1 : ℕ)
    (Y D H sH : ℤ) (F : ℕ) (rest : List ℕ) (hF : inputFuels m StoreT = F :: rest)
    (hcap : m.Max_inst_cap N StoreT Y > 0)
    (hvol : m.Max_inst_storage_vol N StoreT Y > 0)
    (hsett : settlement m F1 = true) (hsub : m.F_subst F F1 = true) :
    storage_energy_balance_rule m a N StoreT F1 Y D H sH
      = .eq (a.storage_energy_level N StoreT F1 Y D H sH)
          ((if (prevCoord m Y D H sH).1 < m.Y_start
              ∨ (prevCoord m Y D H sH).1 < listMin m.Year then
              a.start_storage_energy_level N StoreT F1
            else
              a.storage_energy_level N StoreT F1 (prevCoord m Y D H sH).1
                (prevCoord m Y D H sH).2.1 (prevCoord m Y D H sH).2.2.1
                (prevCoord m Y D H sH).2.2.2)
            + a.f_cons N StoreT F F1 Y D H sH * m.Eff StoreT * m.Delta_T
            - a.f_prod N StoreT F1 Y D H sH / m.Eff StoreT * m.Delta_T) := by
  rw [storage_energy_balance_rule, if_pos ⟨hcap, hvol, hsett⟩]
  simp only [hF, hsub, not_true_eq_false, if_false]

/-- Witness for C2 at the base instance: the previous coordinate of the
single sampled timestep wraps to year 0, which lies before the start year, so
the emitted balance uses the start-level variable. -/
theorem storage_energy_balance_spec_witness :
    storage_energy_balance_rule baseModel zeroAssign 0 0 0 1 0 0 0
      = .eq (zeroAssign.storage_energy_level 0 0 0 1 0 0 0)
          ((if (prevCoord baseModel 1 0 0 0).1 < baseModel.Y_start
              ∨ (prevCoord baseModel 1 0 0 0).1 < listMin baseModel.Year then
              zeroAssign.start_storage_energy_level 0 0 0
            else
              zeroAssign.storage_energy_level 0 0 0 (prevCoord baseModel 1 0 0 0).1
                (prevCoord baseModel 1 0 0 0).2.1 (prevCoord baseModel 1 0 0 0).2.2.1
                (prevCoord baseModel 1 0 0 0).2.2.2)
            + zeroAssign.f_cons 0 0 0 0 1 0 0 0 * baseModel.Eff 0 * baseModel.Delta_T
            - zeroAssign.f_prod 0 0 0 1 0 0 0 / baseModel.Eff 0 * baseModel.Delta_T) :=
  storage_energy_balance_spec baseModel zeroAssign 0 0 0 1 0 0 0 0 [] rfl
    (by decide) (by decide) rfl rfl

/-- Counterexample for C9: a storage technology declaring TWO input fuels.
The balance rule does not fail: it silently resolves the first declared
fuel (index 0, whose marked consumption value is 3, not fuel 1's value 7)
and emits the constraint `level = 0 + 3 - 0`, refuting the claim that
the rules fail fast whenever the input fuel is not unique. -/
theorem resolve_input_fuel_counterexample :
    (inputFuels twoFuelModel 0).length = 2
    ∧ storage_energy_balance_rule twoFuelModel fuelMarkedAssign 0 0 0 1 0 0 0
      = .eq 0 3
    ∧ storage_energy_balance_rule twoFuelModel fuelMarkedAssign 0 0 0 1 0 0 0
      ≠ .err := by
  refine ⟨by decide, ?_, ?_⟩
  · rw [show storage_energy_balance_rule twoFuelModel fuelMarkedAssign 0 0 0 1 0 0 0
        = .eq 0 (0 + 3 * 1 * (1 / 1) - 0 / 1 * (1 / 1)) from by
      simp [storage_energy_balance_rule, twoFuelModel, baseModel, fuelMarkedAssign,
        zeroAssign, inputFuels, settlement, prevCoord, listMin, listMax, Model.Delta_T]]
    norm_num
  · rw [show storage_energy_balance_rule twoFuelModel fuelMarkedAssign 0 0 0 1 0 0 0
        = .eq 0 (0 + 3 * 1 * (1 / 1) - 0 / 1 * (1 / 1)) from by
      simp [storage_energy_balance_rule, twoFuelModel, baseModel, fuelMarkedAssign,
        zeroAssign, inputFuels, settlement, prevCoord, listMin, listMax, Model.Delta_T]]
    simp

/-- Claim C9 (amended): when a storage technology declares no input fuel, the
`[...][0]` lookup makes the rules raise an (undescriptive) `IndexError`
during model construction — unconditionally for the end-storage rule, and
under their activity guards for the start-storage and balance rules; when it
declares one or more input fuels, no rule ever errors: the rules silently
use the first matching fuel in set order. -/
theorem resolve_input_fuel_amended (m : Model) (a : Assign) (N StoreT F1 : ℕ)
    (Y D H sH : ℤ) :
    (inputFuels m StoreT = [] →
      end_storage_energy_level_rule m a N StoreT F1 = .err
      ∧ (m.Max_inst_cap N StoreT (listMax m.Year) > 0 →
          m.Max_inst_storage_vol N StoreT (listMax m.Year) > 0 →
          start_storage_energy_level_rule m a N StoreT = .err)
      ∧ (m.Max_inst_cap N StoreT Y > 0 → m.Max_inst_storage_vol N StoreT Y > 0 →
          settlement m F1 = true →
          storage_energy_balance_rule m a N StoreT F1 Y D H sH = .err))
    ∧ (∀ F rest, inputFuels m StoreT = F :: rest →
        end_storage_energy_level_rule m a N StoreT F1 ≠ .err
        ∧ start_storage_energy_level_rule m a N StoreT ≠ .err
        ∧ storage_energy_balance_rule m a N StoreT F1 Y D H sH ≠ .err) := by
  constructor
  · intro hF
    refine ⟨?_, ?_, ?_⟩
    · simp only [end_storage_energy_level_rule, hF]
    · intro h1 h2
      rw [start_storage_energy_level_rule, if_pos ⟨h1, h2⟩]
      simp only [hF]
    · intro h1 h2 h3
      rw [storage_energy_balance_rule, if_pos ⟨h1, h2, h3⟩]
      simp only [hF]
  · intro F rest hF
    refine ⟨?_, ?_, ?_⟩
    · simp only [end_storage_energy_level_rule, hF]
      split <;> simp
    · rw [start_storage_energy_level_rule]
      split
      · simp only [hF]
        simp
      · simp
    · rw [storage_energy_balance_rule]
      split
      · simp only [hF]
        split
        · simp
        · simp
      · simp

/-- Witness for the amended C9: with no declared input fuel the active base
instance errors in all three rules; with one declared fuel none errors. -/
theorem resolve_input_fuel_amended_witness :
    end_storage_energy_level_rule noFuelModel zeroAssign 0 0 0 = .err
    ∧ start_storage_energy_level_rule noFuelModel zeroAssign 0 0 = .err
    ∧ storage_energy_balance_rule noFuelModel zeroAssign 0 0 0 1 0 0 0 = .err
    ∧ end_storage_energy_level_rule baseModel zeroAssign 0 0 0 ≠ .err :=
  ⟨((resolve_input_fuel_amended noFuelModel zeroAssign 0 0 0 1 0 0 0).1 rfl).1,
    ((resolve_input_fuel_amended noFuelModel zeroAssign 0 0 0 1 0 0 0).1 rfl).2.1
      (by decide) (by decide),
    ((resolve_input_fuel_amended noFuelModel zeroAssign 0 0 0 1 0 0 0).1 rfl).2.2
      (by decide) (by decide) rfl,
    ((resolve_input_fuel_amended baseModel zeroAssign 0 0 0 1 0 0 0).2 0 [] rfl).1⟩

/-- One step of the loop recursion holds definitionally. -/
lemma lcoe_loop_aux_step (thr : ℚ) (d : ℕ → ℚ) (fuel k : ℕ) :
    lcoe_loop_aux thr d (fuel + 1) k
      = if (thr < d k ∨ k + 1 < 4) ∧ k + 1 < 20 then lcoe_loop_aux thr d fuel (k + 1)
        else k := rfl

/-- The loop result never exceeds 19 executed bodies: the guard `i < 20`
with `i = k + 1` stops at `k = 19`. -/
lemma lcoe_loop_aux_le (thr : ℚ) (d : ℕ → ℚ) :
    ∀ fuel k, k ≤ 19 → lcoe_loop_aux thr d fuel k ≤ 19 := by
  intro fuel
  induction fuel with
  | zero => intro k hk; exact hk
  | succ fuel ih =>
    intro k hk
    rw [lcoe_loop_aux_step]
    split
    · next hcond => exact ih (k + 1) (by omega)
    · exact hk

/-- The loop result is at least the starting body count. -/
lemma lcoe_loop_aux_ge (thr : ℚ) (d : ℕ → ℚ) :
    ∀ fuel k, k ≤ lcoe_loop_aux thr d fuel k := by
  intro fuel
  induction fuel with
  | zero => intro k; exact le_refl k
  | succ fuel ih =>
    intro k
    rw [lcoe_loop_aux_step]
    split
    · exact le_trans (Nat.le_succ k) (ih (k + 1))
    · exact le_refl k

/-- Claim C7 (amended): the `calc_LCOEnergy` fixed-point loop always
terminates; because the counter `i` starts at 1 and the loop runs while
`i < min_inter = 4` regardless of `delta_lcoe`, at least 3 bodies always
execute and a convergence stop can occur after exactly 3 (not 4) iterations;
because the loop runs only while `i < max_iter = 20`, at most 19 (not 20)
bodies execute.  The convergence stop tests `delta_lcoe > threshold`, i.e.
the loop stops once `delta_lcoe` is at or below the threshold and `i ≥ 4`. -/
theorem calc_LCOEnergy_iteration_bounds (thr : ℚ) (d : ℕ → ℚ) :
    3 ≤ calc_LCOEnergy_iterations thr d ∧ calc_LCOEnergy_iterations thr d ≤ 19 := by
  constructor
  · have h1 : calc_LCOEnergy_iterations thr d = lcoe_loop_aux thr d 22 3 := by
      rw [calc_LCOEnergy_iterations,
        show (25 : ℕ) = 24 + 1 from rfl, lcoe_loop_aux_step,
        if_pos ⟨Or.inr (by norm_num), by norm_num⟩,
        show (24 : ℕ) = 23 + 1 from rfl, lcoe_loop_aux_step,
        if_pos ⟨Or.inr (by norm_num), by norm_num⟩,
        show (23 : ℕ) = 22 + 1 from rfl, lcoe_loop_aux_step,
        if_pos ⟨Or.inr (by norm_num), by norm_num⟩]
    rw [h1]
    exact lcoe_loop_aux_ge thr d 22 3
  · exact lcoe_loop_aux_le thr d 25 0 (by norm_num)

/-- Witness for the amended C7 at a concrete threshold and delta trace that
never converges: the bounds hold there. -/
theorem calc_LCOEnergy_iteration_bounds_witness :
    3 ≤ calc_LCOEnergy_iterations (1 / 1000000) (fun _ => 1)
    ∧ calc_LCOEnergy_iterations (1 / 1000000) (fun _ => 1) ≤ 19 :=
  calc_LCOEnergy_iteration_bounds (1 / 1000000) (fun _ => 1)

/-- Counterexample for C7: with `delta_lcoe` at 0 — below the threshold
`1e-6` from the start — the loop performs exactly 3 iterations and stops by
the convergence test (3 < 19, so the cap was not hit), refuting "performs at
least 4 iterations before a convergence stop". -/
theorem calc_LCOEnergy_iterations_counterexample :
    calc_LCOEnergy_iterations (1 / 1000000) (fun _ => 0) = 3
    ∧ (0 : ℚ) ≤ 1 / 1000000 ∧ (3 : ℕ) < 4 := by
  refine ⟨?_, by norm_num, by norm_num⟩
  rw [calc_LCOEnergy_iterations,
    show (25 : ℕ) = 24 + 1 from rfl, lcoe_loop_aux_step,
    if_pos ⟨Or.inr (by norm_num), by norm_num⟩,
    show (24 : ℕ) = 23 + 1 from rfl, lcoe_loop_aux_step,
    if_pos ⟨Or.inr (by norm_num), by norm_num⟩,
    show (23 : ℕ) = 22 + 1 from rfl, lcoe_loop_aux_step,
    if_pos ⟨Or.inr (by norm_num), by norm_num⟩,
    show (22 : ℕ) = 21 + 1 from rfl, lcoe_loop_aux_step,
    if_neg (by norm_num)]

/-- Claim C4: for a settlement (non-VRE) fuel, the fuel balance rule returns
a genuine equality constraint whenever any variable term remains on either
side; it returns `pyo.Constraint.Skip` exactly when both sides are variable
free (every term was filtered out) and their constants agree, i.e. the
balance is the tautology `0 == 0`; and the rule's final dispatch maps two
provably unequal constant sides to `None`, which Pyomo surfaces as a
model-build-time error — never a silent skip. -/
theorem fuel_balance_trichotomy (m : Model) (N F1 : ℕ) (Y D H sH : ℤ)
    (hsett : settlement m F1 = true) (hvre : m.VreFuel.contains F1 = false) :
    ((fuel_balance_lhs m N F1 Y D H sH).terms ≠ []
        ∨ (fuel_balance_rhs m N F1 Y D H sH).terms ≠ [] →
      fuel_balance_constraint_rule m N F1 Y D H sH
        = .constraint (fuel_balance_lhs m N F1 Y D H sH) (fuel_balance_rhs m N F1 Y D H sH))
    ∧ (fuel_balance_constraint_rule m N F1 Y D H sH = .skip ↔
        (fuel_balance_lhs m N F1 Y D H sH).terms = []
        ∧ (fuel_balance_rhs m N F1 Y D H sH).terms = []
        ∧ (fuel_balance_lhs m N F1 Y D H sH).const = (fuel_balance_rhs m N F1 Y D H sH).const)
    ∧ (∀ l r : LinExpr, l.terms = [] → r.terms = [] → l.const ≠ r.const →
        pyoEqDispatch l r = .buildError) := by
  have hguard : (settlement m F1 = true) ∧ ¬(m.VreFuel.contains F1 = true) :=
    ⟨hsett, fun hc => by rw [hvre] at hc; cases hc⟩
  have hrule : fuel_balance_constraint_rule m N F1 Y D H sH
      = pyoEqDispatch (fuel_balance_lhs m N F1 Y D H sH) (fuel_balance_rhs m N F1 Y D H sH) := by
    rw [fuel_balance_constraint_rule, if_pos hguard]
  refine ⟨?_, ?_, ?_⟩
  · intro h
    rw [hrule, pyoEqDispatch, if_neg]
    intro hc
    rcases h with h | h
    · exact h (List.isEmpty_iff.mp hc.1)
    · exact h (List.isEmpty_iff.mp hc.2)
  · rw [hrule]
    constructor
    · intro hskip
      by_cases h1 : (fuel_balance_lhs m N F1 Y D H sH).terms.isEmpty
          ∧ (fuel_balance_rhs m N F1 Y D H sH).terms.isEmpty
      · by_cases h2 : (fuel_balance_lhs m N F1 Y D H sH).const
            = (fuel_balance_rhs m N F1 Y D H sH).const
        · exact ⟨List.isEmpty_iff.mp h1.1, List.isEmpty_iff.mp h1.2, h2⟩
        · rw [pyoEqDispatch, if_pos h1, if_neg h2] at hskip
          cases hskip
      · rw [pyoEqDispatch, if_neg h1] at hskip
        cases hskip
    · rintro ⟨h1, h2, h3⟩
      rw [pyoEqDispatch, if_pos ⟨by simp [h1], by simp [h2]⟩, if_pos h3]
  · intro l r h1 h2 h3
    rw [pyoEqDispatch, if_pos ⟨by simp [h1], by simp [h2]⟩, if_neg h3]

/-- Witness for C4: at the base instance (slack enabled, so variable terms
remain) the rule emits the genuine constraint, and the dispatch sends the
unequal constant sides `1` and `0` to the build-error sentinel. -/
theorem fuel_balance_trichotomy_witness :
    fuel_balance_constraint_rule baseModel 0 0 1 0 0 0
      = .constraint (fuel_balance_lhs baseModel 0 0 1 0 0 0)
          (fuel_balance_rhs baseModel 0 0 1 0 0 0)
    ∧ pyoEqDispatch ⟨1, []⟩ ⟨0, []⟩ = .buildError :=
  ⟨(fuel_balance_trichotomy baseModel 0 0 1 0 0 0 rfl rfl).1
      (Or.inl (by decide)),
    (fuel_balance_trichotomy baseModel 0 0 1 0 0 0 rfl rfl).2.2 ⟨1, []⟩ ⟨0, []⟩
      rfl rfl (by norm_num)⟩

/-- Summation is monotone over a list. -/
lemma sum_map_le (l : List ℕ) (f g : ℕ → ℚ) (h : ∀ x ∈ l, f x ≤ g x) :
    (l.map f).sum ≤ (l.map g).sum := by
  induction l with
  | nil => simp
  | cons x xs ih =>
    simp only [List.map_cons, List.sum_cons]
    exact add_le_add (h x (by simp)) (ih (fun y hy => h y (by simp [hy])))

/-- Summation is strictly monotone over a nonempty list. -/
lemma sum_map_lt (l : List ℕ) (f g : ℕ → ℚ) (h : ∀ x ∈ l, f x < g x) (hne : l ≠ []) :
    (l.map f).sum < (l.map g).sum := by
  cases l with
  | nil => exact absurd rfl hne
  | cons x xs =>
    simp only [List.map_cons, List.sum_cons]
    exact add_lt_add_of_lt_of_le (h x (by simp))
      (sum_map_le xs f g (fun y hy => le_of_lt (h y (by simp [hy]))))

/-- A list of zeros sums to zero. -/
lemma sum_map_zero (l : List ℕ) : (l.map (fun _ => (0 : ℚ))).sum = 0 := by
  induction l with
  | nil => simp
  | cons x xs ih => simp [ih]

/-- The discount factor `1/(1+r)` is positive for a non-negative rate. -/
lemma discount_factor_pos (r : ℚ) (h : 0 ≤ r) : 0 < 1 / (1 + r) :=
  one_div_pos.mpr (by linarith)

/-- The discount factor strictly decreases in the rate. -/
lemma discount_factor_lt (r1 r2 : ℚ) (h1 : 0 ≤ r1) (h12 : r1 < r2) :
    1 / (1 + r2) < 1 / (1 + r1) :=
  one_div_lt_one_div_of_lt (by linarith) (by linarith)

/-- A positive cost at a positive discount exponent strictly decreases when
the rate increases. -/
lemma disc_term_lt (c r1 r2 : ℚ) (hc : 0 < c) (h1 : 0 ≤ r1) (h12 : r1 < r2)
    (e : ℕ) (he : e ≠ 0) :
    c * (1 / (1 + r2)) ^ e < c * (1 / (1 + r1)) ^ e :=
  mul_lt_mul_of_pos_left
    (pow_lt_pow_left₀ (discount_factor_lt r1 r2 h1 h12)
      (le_of_lt (discount_factor_pos r2 (le_trans h1 (le_of_lt h12)))) he) hc

/-- A non-negative cost weakly decreases under a deeper discount. -/
lemma disc_term_le (c r1 r2 : ℚ) (hc : 0 ≤ c) (h1 : 0 ≤ r1) (h12 : r1 < r2) (e : ℕ) :
    c * (1 / (1 + r2)) ^ e ≤ c * (1 / (1 + r1)) ^ e :=
  mul_le_mul_of_nonneg_left
    (pow_le_pow_left₀ (le_of_lt (discount_factor_pos r2 (le_trans h1 (le_of_lt h12))))
      (le_of_lt (discount_factor_lt r1 r2 h1 h12)) e) hc

/-- Every missing year in the tail correction is at least 1. -/
lemma missingYears_pos (dd : DiscData) : ∀ Ym ∈ dd.missingYears, Ym ≠ 0 := by
  intro Ym hYm
  rw [DiscData.missingYears, List.mem_map] at hYm
  obtain ⟨i, hi, hEq⟩ := hYm
  rw [List.mem_range] at hi
  omega

/-- Claim C8: for a strictly positive constant opex series over nonempty
sampled year and node sets and a positive project horizon, `calc_disc_opex`
strictly decreases when the discount rate increases, all else fixed —
including the tail-correction terms for the missing years.  (Year labels are
at least 1, matching the 1-based year indexing of the discount exponent
`(Y-1)*Scale_Y_int`.) -/
theorem calc_disc_opex_discount_antitone (dd : DiscData) (c r1 r2 : ℚ)
    (hc : 0 < c) (hopex : ∀ N Y, dd.opex N Y = c)
    (hYear : dd.Year ≠ []) (hNode : dd.Node ≠ [])
    (hY : ∀ Y ∈ dd.Year, 1 ≤ Y) (hS : 1 ≤ dd.Scale_Y_to)
    (hr1 : 0 ≤ r1) (hr12 : r1 < r2) :
    calc_disc_opex dd r2 < calc_disc_opex dd r1 := by
  rw [calc_disc_opex, calc_disc_opex]
  by_cases hSYi : dd.scaleYInt = 0
  · -- no considered years: the head sum is empty, the whole value is the tail
    have hAzero : ∀ r : ℚ,
        (dd.Year.map (fun Y =>
          ((List.range dd.scaleYInt).map (fun Y2 =>
            (dd.Node.map (fun N =>
              dd.opex N Y * (1 / (1 + r)) ^ (Y2 + 1 + (Y - 1) * dd.scaleYInt))).sum)).sum)).sum
          = 0 := by
      intro r
      rw [hSYi]
      simp only [List.range_zero, List.map_nil, List.sum_nil]
      exact sum_map_zero dd.Year
    rw [hAzero r1, hAzero r2, zero_add, zero_add]
    have hne : dd.missingYears ≠ [] := by
      intro hnil
      have hlen := congrArg List.length hnil
      rw [DiscData.missingYears, List.length_map, List.length_range, hSYi,
        Nat.mul_zero, List.length_nil] at hlen
      omega
    refine sum_map_lt _ _ _ ?_ hne
    intro Ym hYm
    refine sum_map_lt _ _ _ ?_ hNode
    intro N hN
    rw [hopex N (listMaxNat dd.Year)]
    exact disc_term_lt c r1 r2 hc hr1 hr12 Ym (missingYears_pos dd Ym hYm)
  · -- at least one considered year: the head sum strictly decreases and the
    -- tail weakly decreases
    apply add_lt_add_of_lt_of_le
    · refine sum_map_lt _ _ _ ?_ hYear
      intro Y hYmem
      refine sum_map_lt _ _ _ ?_ ?_
      · intro Y2 hY2
        refine sum_map_lt _ _ _ ?_ hNode
        intro N hN
        rw [hopex N Y]
        exact disc_term_lt c r1 r2 hc hr1 hr12 _ (by omega)
      · intro hnil
        have hlen := congrArg List.length hnil
        rw [List.length_range, List.length_nil] at hlen
        omega
    · apply sum_map_le
      intro Ym hYm
      apply sum_map_le
      intro N hN
      rw [hopex N (listMaxNat dd.Year)]
      exact disc_term_le c r1 r2 (le_of_lt hc) hr1 hr12 Ym

/-- Witness for C8: one sampled year representing a one-year horizon, one
node, flat opex 1; raising the rate from 0 to 1 strictly lowers the result. -/
theorem calc_disc_opex_discount_antitone_witness :
    calc_disc_opex flatDiscData 1 < calc_disc_opex flatDiscData 0 :=
  calc_disc_opex_discount_antitone flatDiscData 1 0 1 one_pos
    (fun _ _ => rfl) (by decide) (by decide) (by decide) (by decide)
    le_rfl one_pos

end OptSys
